import Mathlib

/-!
Verification development for the DUUI pipeline orchestrator
(`duui_orchestrator.py`): a shallow embedding of the span builder,
fallback scorer, fact-check stage dispatch, report classification and
main control flow, with theorems settling the specified properties.

Python strings are modelled as `List Char` (Python slicing and offsets
are character-based); Python floats are modelled as rationals `ℚ`.
-/

/-- ASCII lower-casing of one character, embedding Python's `str.lower()`
on the ASCII range (all inputs in the repository are ASCII). -/
def lowerChar (c : Char) : Char :=
  if c = 'A' then 'a' else if c = 'B' then 'b' else if c = 'C' then 'c'
  else if c = 'D' then 'd' else if c = 'E' then 'e' else if c = 'F' then 'f'
  else if c = 'G' then 'g' else if c = 'H' then 'h' else if c = 'I' then 'i'
  else if c = 'J' then 'j' else if c = 'K' then 'k' else if c = 'L' then 'l'
  else if c = 'M' then 'm' else if c = 'N' then 'n' else if c = 'O' then 'o'
  else if c = 'P' then 'p' else if c = 'Q' then 'q' else if c = 'R' then 'r'
  else if c = 'S' then 's' else if c = 'T' then 't' else if c = 'U' then 'u'
  else if c = 'V' then 'v' else if c = 'W' then 'w' else if c = 'X' then 'x'
  else if c = 'Y' then 'y' else if c = 'Z' then 'z' else c

/-- Helper for `pySplit`: accumulates the current (reversed) token. -/
def splitWsAux : List Char → List Char → List (List Char)
  | [], acc => if acc.isEmpty then [] else [acc.reverse]
  | c :: cs, acc =>
    if c.isWhitespace then
      if acc.isEmpty then splitWsAux cs [] else acc.reverse :: splitWsAux cs []
    else splitWsAux cs (c :: acc)

/-- Python's `str.split()` with no arguments: split on runs of whitespace,
dropping empty tokens. -/
def pySplit (s : List Char) : List (List Char) := splitWsAux s []

/-- The token set used by `generate_demo_scores`:
`set(s.lower().split())`. -/
def tokenSet (s : List Char) : Finset (List Char) :=
  (pySplit (s.map lowerChar)).toFinset

/-- The scoring of one claim/fact pair inside the loop of
`generate_demo_scores` (duui_orchestrator.py lines 245-261). -/
def demoScore (claim fact : List Char) : ℚ :=
  let claim_words := tokenSet claim
  let fact_words := tokenSet fact
  if (claim_words ∪ fact_words).card = 0 then 0
  else
    let overlap := (claim_words ∩ fact_words).card
    let union := (claim_words ∪ fact_words).card
    let jaccard : ℚ := (overlap : ℚ) / (union : ℚ)
    min (jaccard * (12/10) + 1/10) 1

/-- A claim/fact input pair (an element of `FACT_CHECK_PAIRS`). -/
structure ClaimFactPair where
  claim : List Char
  fact : List Char
  claim_index : Nat
deriving DecidableEq

/-- `generate_demo_scores` (duui_orchestrator.py lines 242-263). -/
def generate_demo_scores (pairs : List ClaimFactPair) : List ℚ :=
  pairs.map (fun p => demoScore p.claim p.fact)

/-- A half-open character span into the combined text, as in the
`begin`/`end`/`text` fields of the dicts built by `run_factcheck`. -/
structure Span where
  b : Nat
  e : Nat
  text : List Char
deriving DecidableEq

/-- One element of `claims_all`: the claim's own span plus the linked
fact spans (`"facts"` key). -/
structure ClaimRecord where
  span : Span
  facts : List Span
deriving DecidableEq

/-- One element of `facts_all`: the fact's own span plus the linked
claim spans (`"claims"` key). -/
structure FactRecord where
  span : Span
  claims : List Span
deriving DecidableEq

/-- The string `"Claim {claim_idx + 1}: "` of `run_factcheck`. -/
def claimHeader (claim_idx : Nat) : List Char :=
  "Claim ".data ++ (Nat.repr (claim_idx + 1)).data ++ ": ".data

/-- The string `" Fact {claim_idx + 1}: "` of `run_factcheck`. -/
def factHeader (claim_idx : Nat) : List Char :=
  " Fact ".data ++ (Nat.repr (claim_idx + 1)).data ++ ": ".data

/-- The span-building loop of `run_factcheck` (duui_orchestrator.py lines
162-203), started at enumeration index `claim_idx` and running character
cursor `current_pos`. Returns the combined text (the concatenation of
`combined_text_parts`) together with `claims_all` and `facts_all`. -/
def buildSpans : Nat → Nat → List ClaimFactPair →
    List Char × List ClaimRecord × List FactRecord
  | _, _, [] => ([], [], [])
  | claim_idx, current_pos, pair :: rest =>
    let claim_start := current_pos + (claimHeader claim_idx).length
    let claim_end := claim_start + pair.claim.length
    let fact_start := claim_end + (factHeader claim_idx).length
    let fact_end := fact_start + pair.fact.length
    let claimSpan : Span := ⟨claim_start, claim_end, pair.claim⟩
    let factSpan : Span := ⟨fact_start, fact_end, pair.fact⟩
    let chunk := claimHeader claim_idx ++ pair.claim ++
      factHeader claim_idx ++ pair.fact ++ ['\n']
    let tail := buildSpans (claim_idx + 1) (fact_end + 1) rest
    (chunk ++ tail.1,
     ⟨claimSpan, [factSpan]⟩ :: tail.2.1,
     ⟨factSpan, [claimSpan]⟩ :: tail.2.2)

/-- The fact-check HTTP outcome seen by `run_factcheck`: a timeout, some
other transport error, or a status code together with the optional
`consistency` field of the parsed JSON body. -/
inductive FcResponse where
  | timeout
  | transportError
  | status (code : Nat) (consistency : Option (List ℚ))
deriving DecidableEq

/-- The dictionary returned by `run_factcheck`: `{}`, a passed-through
real result, or a synthesized demo result (whose dict carries
`is_demo: True` and, on the timeout path only, `timed_out: True`). -/
inductive FcOut where
  | empty
  | real (consistency : List ℚ)
  | demo (consistency : List ℚ) (timed_out : Bool)
deriving DecidableEq

/-- `result.get('is_demo', False)` as read by `display_results`. -/
def FcOut.is_demo : FcOut → Bool
  | .demo _ _ => true
  | _ => false

/-- `result.get('timed_out', False)` as read by `display_results`. -/
def FcOut.timed_out : FcOut → Bool
  | .demo _ t => t
  | _ => false

/-- `result.get('consistency', [])` as read by `display_results`. -/
def FcOut.consistency : FcOut → List ℚ
  | .empty => []
  | .real l => l
  | .demo l _ => l

/-- `run_factcheck` (duui_orchestrator.py lines 153-239), as a function of
the input pairs and of the HTTP outcome of the single `/v1/process` POST.
Returns the result dictionary together with the list of process calls
issued (empty input short-circuits before any HTTP call). -/
def run_factcheckM (claim_fact_pairs : List ClaimFactPair)
    (resp : FcResponse) : FcOut × Bool :=
  if claim_fact_pairs.isEmpty then (.empty, false)
  else
    match resp with
    | .status code body =>
      if code = 200 then
        let consistency := body.getD []
        if consistency.isEmpty then
          (.demo (generate_demo_scores claim_fact_pairs) false, true)
        else
          (.real consistency, true)
      else (.empty, true)
    | .timeout => (.demo (generate_demo_scores claim_fact_pairs) true, true)
    | .transportError => (.empty, true)

/-- The module-level constant `FACT_CHECK_PAIRS`
(duui_orchestrator.py lines 27-64). -/
def FACT_CHECK_PAIRS : List ClaimFactPair :=
  [⟨"Paris is capital of France".data,
    "Paris serves as the capital city of France".data, 0⟩,
   ⟨"Water boils at 100C".data,
    "Water boils at exactly 100 degrees Celsius at sea level".data, 1⟩,
   ⟨"The Moon orbits Earth".data,
    "The Moon orbits around the Earth in approximately 27.3 days".data, 2⟩,
   ⟨"Python programming language was invented in 1990".data,
    "Python was first released by Guido van Rossum in February 1991".data, 3⟩,
   ⟨"Shakespeare wrote Hamlet".data,
    "William Shakespeare authored the tragedy Hamlet in the early 1600s".data, 4⟩,
   ⟨"The Great Wall of China is visible from space with the naked eye".data,
    ("The Great Wall of China is not visible from space with the naked eye " ++
     "due to its width and color").data, 5⟩]

/-- The support tier printed for one fact-check score by
`display_results`. -/
inductive Tier where
  | supported
  | partiallySupported
  | weaklySupported
  | contradicted
deriving DecidableEq

/-- The support-tier conditional of `display_results`
(duui_orchestrator.py lines 373-381). -/
def supportTier (score : ℚ) : Tier :=
  if score > 7/10 then .supported
  else if score > 1/2 then .partiallySupported
  else if score > 3/10 then .weaklySupported
  else .contradicted

/-- The overall sentiment label printed by `display_results`. -/
inductive Label where
  | negative
  | positive
  | neutral
deriving DecidableEq

/-- The sentiment interpretation of `display_results`
(duui_orchestrator.py lines 308-315): `max_score = max(pos, neu, neg)`,
then negative is checked first, then positive, else neutral. -/
def sentimentLabel (pos neu neg : ℚ) : Label :=
  let max_score := max pos (max neu neg)
  if max_score = neg then .negative
  else if max_score = pos then .positive
  else .neutral

/-- The fact-check rows rendered by the loop
`for i in range(min(len(consistency), len(claim_fact_pairs)))` of
`display_results` (duui_orchestrator.py lines 364-371): each row shows
the pair and its score. -/
def displayFactcheckRows (consistency : List ℚ)
    (claim_fact_pairs : List ClaimFactPair) : List (ClaimFactPair × ℚ) :=
  (List.range (min consistency.length claim_fact_pairs.length)).map
    (fun i => (claim_fact_pairs.getD i ⟨[], [], 0⟩, consistency.getD i 0))

/-- The guarded `non_hate` read of `display_results`
(duui_orchestrator.py line 332): `non_hate[i]` if `i` is within bounds,
else `0`. -/
def displayNonHate (non_hate : List ℚ) (i : Nat) : ℚ :=
  if i < non_hate.length then non_hate.getD i 0 else 0

/-- The outcome of one of the two text-stage HTTP calls
(`run_sentiment` / `run_hatecheck`): success body, bad status, or
transport error; the body itself is opaque for the claims settled here. -/
inductive StageResp where
  | ok
  | httpError
  | transportError
deriving DecidableEq

/-- Which services `main` issued a `/v1/process` POST to, in order. -/
inductive Stage where
  | sentiment
  | hatecheck
  | factcheck
deriving DecidableEq

/-- `run_sentiment` (duui_orchestrator.py lines 82-116): always POSTs;
returns whether the parsed body (`True`) or `{}` (`False`) came back,
paired with the process call it issued. -/
def run_sentimentM (resp : StageResp) : Bool × List Stage :=
  match resp with
  | .ok => (true, [.sentiment])
  | .httpError => (false, [.sentiment])
  | .transportError => (false, [.sentiment])

/-- `run_hatecheck` (duui_orchestrator.py lines 119-150): same shape as
`run_sentiment` with its own URL and timeout. -/
def run_hatecheckM (resp : StageResp) : Bool × List Stage :=
  match resp with
  | .ok => (true, [.hatecheck])
  | .httpError => (false, [.hatecheck])
  | .transportError => (false, [.hatecheck])

/-- The three liveness-probe results gathered by `main` via
`check_component` (`True` iff the GET returned HTTP 200). -/
structure ProbeResults where
  sentiment : Bool
  hatecheck : Bool
  factcheck : Bool
deriving DecidableEq

/-- `main` (duui_orchestrator.py lines 390-423), as a function of the
probe results and of the three stage HTTP outcomes: returns the process
exit status and the ordered list of `/v1/process` calls issued. If any
probe fails, `main` returns 1 before any stage runs; otherwise the three
stages run in order on the module constants and `main` returns 0
regardless of stage outcomes. -/
def mainM (probes : ProbeResults) (sResp hResp : StageResp)
    (fResp : FcResponse) : Nat × List Stage :=
  if ¬(probes.sentiment && probes.hatecheck && probes.factcheck) then
    (1, [])
  else
    let sentiment_result := run_sentimentM sResp
    let hatecheck_result := run_hatecheckM hResp
    let factcheck_result := run_factcheckM FACT_CHECK_PAIRS fResp
    (0, sentiment_result.2 ++ hatecheck_result.2 ++
      (if factcheck_result.2 then [Stage.factcheck] else []))

/-- The Fallback Scorer exactly as §4.2 of the specification words it,
declared separately from the code-derived `demoScore` so that the two can
be compared. -/
def demoScoreSpec (claim fact : List Char) : ℚ :=
  let claim_tokens := tokenSet claim
  let fact_tokens := tokenSet fact
  if claim_tokens ∪ fact_tokens = ∅ then 0
  else
    let jaccard : ℚ := ((claim_tokens ∩ fact_tokens).card : ℚ) /
      ((claim_tokens ∪ fact_tokens).card : ℚ)
    min (jaccard * (12/10) + 1/10) 1

/-! ## Helper lemmas -/

theorem demoScore_eq_spec (c f : List Char) :
    demoScore c f = demoScoreSpec c f := by
  unfold demoScore demoScoreSpec
  simp [Finset.card_eq_zero]

theorem demoScore_nonneg (c f : List Char) : 0 ≤ demoScore c f := by
  simp only [demoScore]
  split
  · exact le_refl 0
  · refine le_min ?_ (by norm_num)
    positivity

theorem demoScore_le_one (c f : List Char) : demoScore c f ≤ 1 := by
  simp only [demoScore]
  split
  · norm_num
  · exact min_le_right _ _

theorem length_generate_demo_scores (pairs : List ClaimFactPair) :
    (generate_demo_scores pairs).length = pairs.length :=
  List.length_map _ _

theorem demoScore_paris :
    demoScore "Paris is capital of France".data
      "Paris serves as the capital city of France".data = 19/30 := by
  have h1 : (tokenSet "Paris is capital of France".data ∩
      tokenSet "Paris serves as the capital city of France".data).card = 4 := by
    decide
  have h2 : (tokenSet "Paris is capital of France".data ∪
      tokenSet "Paris serves as the capital city of France".data).card = 9 := by
    decide
  rw [demoScore]
  simp only [h1, h2]
  norm_num [min_def]

theorem splitWsAux_ne_nil_of_acc (l acc : List Char) (h : acc ≠ []) :
    splitWsAux l acc ≠ [] := by
  induction l generalizing acc with
  | nil =>
    simp only [splitWsAux]
    rw [if_neg (by simpa [List.isEmpty_iff] using h)]
    simp
  | cons c cs ih =>
    simp only [splitWsAux]
    split
    · rw [if_neg (by simpa [List.isEmpty_iff] using h)]
      simp
    · exact ih (c :: acc) (by simp)

theorem splitWsAux_ne_nil (l : List Char)
    (h : ∃ c ∈ l, c.isWhitespace = false) :
    ∀ acc, splitWsAux l acc ≠ [] := by
  induction l with
  | nil => simp at h
  | cons c cs ih =>
    intro acc
    simp only [splitWsAux]
    by_cases hws : c.isWhitespace
    · rw [if_pos hws]
      have hcs : ∃ d ∈ cs, d.isWhitespace = false := by
        rcases h with ⟨d, hd, hdw⟩
        rcases List.mem_cons.mp hd with rfl | hmem
        · exact absurd hws (by simp [hdw])
        · exact ⟨d, hmem, hdw⟩
      split
      · exact ih hcs []
      · simp
    · rw [if_neg hws]
      exact splitWsAux_ne_nil_of_acc cs (c :: acc) (by simp)

theorem lowerChar_isWhitespace (c : Char) :
    (lowerChar c).isWhitespace = c.isWhitespace := by
  unfold lowerChar
  by_cases hA : c = 'A'
  · subst hA; rfl
  rw [if_neg hA]
  by_cases hB : c = 'B'
  · subst hB; rfl
  rw [if_neg hB]
  by_cases hC : c = 'C'
  · subst hC; rfl
  rw [if_neg hC]
  by_cases hD : c = 'D'
  · subst hD; rfl
  rw [if_neg hD]
  by_cases hE : c = 'E'
  · subst hE; rfl
  rw [if_neg hE]
  by_cases hF : c = 'F'
  · subst hF; rfl
  rw [if_neg hF]
  by_cases hG : c = 'G'
  · subst hG; rfl
  rw [if_neg hG]
  by_cases hH : c = 'H'
  · subst hH; rfl
  rw [if_neg hH]
  by_cases hI : c = 'I'
  · subst hI; rfl
  rw [if_neg hI]
  by_cases hJ : c = 'J'
  · subst hJ; rfl
  rw [if_neg hJ]
  by_cases hK : c = 'K'
  · subst hK; rfl
  rw [if_neg hK]
  by_cases hL : c = 'L'
  · subst hL; rfl
  rw [if_neg hL]
  by_cases hM : c = 'M'
  · subst hM; rfl
  rw [if_neg hM]
  by_cases hN : c = 'N'
  · subst hN; rfl
  rw [if_neg hN]
  by_cases hO : c = 'O'
  · subst hO; rfl
  rw [if_neg hO]
  by_cases hP : c = 'P'
  · subst hP; rfl
  rw [if_neg hP]
  by_cases hQ : c = 'Q'
  · subst hQ; rfl
  rw [if_neg hQ]
  by_cases hR : c = 'R'
  · subst hR; rfl
  rw [if_neg hR]
  by_cases hS : c = 'S'
  · subst hS; rfl
  rw [if_neg hS]
  by_cases hT : c = 'T'
  · subst hT; rfl
  rw [if_neg hT]
  by_cases hU : c = 'U'
  · subst hU; rfl
  rw [if_neg hU]
  by_cases hV : c = 'V'
  · subst hV; rfl
  rw [if_neg hV]
  by_cases hW : c = 'W'
  · subst hW; rfl
  rw [if_neg hW]
  by_cases hX : c = 'X'
  · subst hX; rfl
  rw [if_neg hX]
  by_cases hY : c = 'Y'
  · subst hY; rfl
  rw [if_neg hY]
  by_cases hZ : c = 'Z'
  · subst hZ; rfl
  rw [if_neg hZ]

theorem tokenSet_nonempty (s : List Char)
    (h : ∃ c ∈ s, c.isWhitespace = false) : (tokenSet s).Nonempty := by
  rw [tokenSet, Finset.nonempty_iff_ne_empty]
  intro hcon
  rcases h with ⟨c, hc, hcw⟩
  have hmap : ∃ d ∈ s.map lowerChar, d.isWhitespace = false :=
    ⟨lowerChar c, List.mem_map_of_mem _ hc, by rw [lowerChar_isWhitespace]; exact hcw⟩
  have := splitWsAux_ne_nil (s.map lowerChar) hmap []
  rw [List.toFinset_eq_empty_iff] at hcon
  exact this hcon

theorem drop_append_sub (l₁ l₂ : List Char) (n : Nat) (h : l₁.length ≤ n) :
    (l₁ ++ l₂).drop n = l₂.drop (n - l₁.length) := by
  have hn : n = l₁.length + (n - l₁.length) := by omega
  rw [hn, List.drop_append]
  congr 1
  omega

theorem buildSpans_slices (pairs : List ClaimFactPair) :
    ∀ claim_idx current_pos : Nat,
      (∀ c ∈ (buildSpans claim_idx current_pos pairs).2.1,
          current_pos ≤ c.span.b ∧ c.span.b ≤ c.span.e ∧
          ((buildSpans claim_idx current_pos pairs).1.drop
              (c.span.b - current_pos)).take (c.span.e - c.span.b) =
            c.span.text) ∧
      (∀ f ∈ (buildSpans claim_idx current_pos pairs).2.2,
          current_pos ≤ f.span.b ∧ f.span.b ≤ f.span.e ∧
          ((buildSpans claim_idx current_pos pairs).1.drop
              (f.span.b - current_pos)).take (f.span.e - f.span.b) =
            f.span.text) := by
  induction pairs with
  | nil =>
    intro claim_idx current_pos
    constructor <;> (intro x hx; simp [buildSpans] at hx)
  | cons p ps ih =>
    intro idx pos
    have hIH := ih (idx + 1)
      (pos + (claimHeader idx).length + p.claim.length +
        (factHeader idx).length + p.fact.length + 1)
    constructor
    · intro c hc
      simp only [buildSpans] at hc ⊢
      rcases List.mem_cons.mp hc with rfl | hmem
      · dsimp only
        refine ⟨by omega, by omega, ?_⟩
        simp only [List.append_assoc]
        rw [drop_append_sub _ _ _ (by omega)]
        have h0 : pos + (claimHeader idx).length - pos -
            (claimHeader idx).length = 0 := by omega
        have h1 : pos + (claimHeader idx).length + p.claim.length -
            (pos + (claimHeader idx).length) = p.claim.length := by omega
        rw [h0, h1, List.drop_zero, List.take_left]
      · obtain ⟨hb1, hb2, hb3⟩ := hIH.1 c hmem
        have hnl : (['\n'] : List Char).length = 1 := rfl
        refine ⟨by omega, hb2, ?_⟩
        simp only [List.append_assoc]
        rw [drop_append_sub _ _ _ (by omega),
            drop_append_sub _ _ _ (by omega),
            drop_append_sub _ _ _ (by omega),
            drop_append_sub _ _ _ (by omega),
            drop_append_sub _ _ _ (by omega)]
        have h0 : c.span.b - pos - (claimHeader idx).length -
            p.claim.length - (factHeader idx).length - p.fact.length -
            ['\n'].length =
            c.span.b - (pos + (claimHeader idx).length + p.claim.length +
              (factHeader idx).length + p.fact.length + 1) := by
          simp only [List.length_singleton]
          omega
        rw [h0]
        exact hb3
    · intro f hf
      simp only [buildSpans] at hf ⊢
      rcases List.mem_cons.mp hf with rfl | hmem
      · dsimp only
        refine ⟨by omega, by omega, ?_⟩
        simp only [List.append_assoc]
        rw [drop_append_sub _ _ _ (by omega),
            drop_append_sub _ _ _ (by omega),
            drop_append_sub _ _ _ (by omega)]
        have h0 : pos + (claimHeader idx).length + p.claim.length +
            (factHeader idx).length - pos - (claimHeader idx).length -
            p.claim.length - (factHeader idx).length = 0 := by omega
        have h1 : pos + (claimHeader idx).length + p.claim.length +
            (factHeader idx).length + p.fact.length -
            (pos + (claimHeader idx).length + p.claim.length +
              (factHeader idx).length) = p.fact.length := by omega
        rw [h0, h1, List.drop_zero, List.take_left]
      · obtain ⟨hb1, hb2, hb3⟩ := hIH.2 f hmem
        have hnl : (['\n'] : List Char).length = 1 := rfl
        refine ⟨by omega, hb2, ?_⟩
        simp only [List.append_assoc]
        rw [drop_append_sub _ _ _ (by omega),
            drop_append_sub _ _ _ (by omega),
            drop_append_sub _ _ _ (by omega),
            drop_append_sub _ _ _ (by omega),
            drop_append_sub _ _ _ (by omega)]
        have h0 : f.span.b - pos - (claimHeader idx).length -
            p.claim.length - (factHeader idx).length - p.fact.length -
            ['\n'].length =
            f.span.b - (pos + (claimHeader idx).length + p.claim.length +
              (factHeader idx).length + p.fact.length + 1) := by
          simp only [List.length_singleton]
          omega
        rw [h0]
        exact hb3

theorem demoScore_self (s : List Char) (h : (tokenSet s).Nonempty) :
    demoScore s s = 1 := by
  have hcard : (tokenSet s).card ≠ 0 :=
    Finset.card_ne_zero_of_mem h.choose_spec
  simp only [demoScore, Finset.inter_self, Finset.union_self]
  rw [if_neg hcard, div_self (by exact_mod_cast hcard)]
  norm_num [min_def]

theorem buildSpans_link (pairs : List ClaimFactPair) :
    ∀ claim_idx current_pos i : Nat, i < pairs.length →
      ((buildSpans claim_idx current_pos pairs).2.1.getD i
          ⟨⟨0, 0, []⟩, []⟩).facts =
        [((buildSpans claim_idx current_pos pairs).2.2.getD i
            ⟨⟨0, 0, []⟩, []⟩).span] ∧
      ((buildSpans claim_idx current_pos pairs).2.2.getD i
          ⟨⟨0, 0, []⟩, []⟩).claims =
        [((buildSpans claim_idx current_pos pairs).2.1.getD i
            ⟨⟨0, 0, []⟩, []⟩).span] := by
  induction pairs with
  | nil => intro _ _ i hi; simp at hi
  | cons p ps ih =>
    intro idx pos i hi
    cases i with
    | zero => constructor <;> simp [buildSpans]
    | succ j =>
      have hj : j < ps.length := by simpa using hi
      simpa [buildSpans] using ih (idx + 1)
        (pos + (claimHeader idx).length + p.claim.length +
          (factHeader idx).length + p.fact.length + 1) j hj

theorem supportTier_nineteen_thirtieths :
    supportTier (19/30) = Tier.partiallySupported := by
  unfold supportTier
  rw [if_neg (by norm_num), if_pos (by norm_num)]

/-! ## Claim theorems -/

/-- Claim C1 (confirmed): for every list of claim–fact pairs, the spans
recorded by the span-building loop of `run_factcheck` are exact: for every
claim record and every fact record, the slice of the combined text from
its `begin` offset (inclusive) to its `end` offset (exclusive) equals its
stored `text` field. -/
theorem C1_spans_exact (pairs : List ClaimFactPair) :
    (∀ c ∈ (buildSpans 0 0 pairs).2.1,
        ((buildSpans 0 0 pairs).1.drop c.span.b).take (c.span.e - c.span.b) =
          c.span.text) ∧
    (∀ f ∈ (buildSpans 0 0 pairs).2.2,
        ((buildSpans 0 0 pairs).1.drop f.span.b).take (f.span.e - f.span.b) =
          f.span.text) := by
  obtain ⟨h1, h2⟩ := buildSpans_slices pairs 0 0
  constructor
  · intro c hc
    simpa using (h1 c hc).2.2
  · intro f hf
    simpa using (h2 f hf).2.2

/-- Witness for C1: the claim span of the single pair ("a", "b") starts
after the 9-character header "Claim 1: " and slices back to "a". -/
theorem C1_spans_exact_witness :
    ((buildSpans 0 0 [⟨"a".data, "b".data, 0⟩]).1.drop 9).take 1 = "a".data := by
  have h := (C1_spans_exact [⟨"a".data, "b".data, 0⟩]).1
    ⟨⟨9, 10, "a".data⟩, [⟨19, 20, "b".data⟩]⟩ (by decide)
  simpa using h

/-- Claim C2 (confirmed): `generate_demo_scores` computes, for every pair,
exactly the specified formula (lower-case both strings, split into
whitespace token sets, score 0 on empty union, otherwise
`min(jaccard * 1.2 + 0.1, 1.0)`), and every produced score lies in
[0, 1]; determinism is inherent, the embedding being a pure function. -/
theorem C2_demo_scores_formula (pairs : List ClaimFactPair) :
    generate_demo_scores pairs =
      pairs.map (fun p => demoScoreSpec p.claim p.fact) ∧
    ∀ q ∈ generate_demo_scores pairs, 0 ≤ q ∧ q ≤ 1 := by
  constructor
  · unfold generate_demo_scores
    exact List.map_congr_left (fun p _ => demoScore_eq_spec p.claim p.fact)
  · intro q hq
    rcases List.mem_map.mp hq with ⟨p, _, rfl⟩
    exact ⟨demoScore_nonneg _ _, demoScore_le_one _ _⟩

/-- Witness for C2 at the concrete pair ("a", "a"). -/
theorem C2_demo_scores_formula_witness :
    demoScore "a".data "a".data ∈
      generate_demo_scores [⟨"a".data, "a".data, 0⟩] ∧
    (0 ≤ demoScore "a".data "a".data ∧ demoScore "a".data "a".data ≤ 1) :=
  ⟨by simp [generate_demo_scores],
   (C2_demo_scores_formula [⟨"a".data, "a".data, 0⟩]).2 _
     (by simp [generate_demo_scores])⟩

/-- Claim C3 (confirmed): for a non-empty pair list (the only case in
which `run_factcheck` issues its HTTP call at all), the result is
classified by failure mode: HTTP 200 with non-empty `consistency` passes
the real scores through with `is_demo` false; HTTP 200 with an empty or
absent `consistency` yields fallback scores (one per input pair) with
`is_demo` true and `timed_out` false; a timeout yields fallback scores
with `is_demo` true and `timed_out` true; a non-200 status or any other
transport error yields the empty result with no fallback synthesis. -/
theorem C3_run_factcheck_modes (pairs : List ClaimFactPair)
    (hne : pairs ≠ []) :
    (∀ l : List ℚ, l ≠ [] →
        (run_factcheckM pairs (.status 200 (some l))).1 = .real l ∧
        ((run_factcheckM pairs (.status 200 (some l))).1).is_demo = false) ∧
    ((run_factcheckM pairs (.status 200 (some []))).1 =
        .demo (generate_demo_scores pairs) false) ∧
    ((run_factcheckM pairs (.status 200 none)).1 =
        .demo (generate_demo_scores pairs) false) ∧
    ((run_factcheckM pairs (.status 200 (some []))).1.consistency.length =
        pairs.length) ∧
    ((run_factcheckM pairs .timeout).1 =
        .demo (generate_demo_scores pairs) true) ∧
    ((run_factcheckM pairs .timeout).1.timed_out = true) ∧
    (∀ (code : Nat) (body : Option (List ℚ)), code ≠ 200 →
        (run_factcheckM pairs (.status code body)).1 = .empty) ∧
    ((run_factcheckM pairs .transportError).1 = .empty) := by
  have hemp : pairs.isEmpty = false := by
    cases pairs
    · exact absurd rfl hne
    · rfl
  refine ⟨?_, ?_, ?_, ?_, ?_, ?_, ?_, ?_⟩
  · intro l hl
    have hl' : l.isEmpty = false := by
      cases l
      · exact absurd rfl hl
      · rfl
    constructor <;> simp [run_factcheckM, hemp, hl', FcOut.is_demo]
  · simp [run_factcheckM, hemp]
  · simp [run_factcheckM, hemp]
  · simp [run_factcheckM, hemp, FcOut.consistency, generate_demo_scores]
  · simp [run_factcheckM, hemp]
  · simp [run_factcheckM, hemp, FcOut.timed_out]
  · intro code body hcode
    simp [run_factcheckM, hemp, hcode]
  · simp [run_factcheckM, hemp]

/-- Witness for C3: the timeout mode at the module's own pair list. -/
theorem C3_run_factcheck_modes_witness :
    (run_factcheckM FACT_CHECK_PAIRS .timeout).1 =
      .demo (generate_demo_scores FACT_CHECK_PAIRS) true :=
  (C3_run_factcheck_modes FACT_CHECK_PAIRS (by decide)).2.2.2.2.1

/-- Claim C4 as stated is false on the code: for the pair
("Paris is capital of France", "Paris serves as the capital city of
France") the token sets share 4 of 9 words, so the fallback score is
4/9 * 1.2 + 0.1 = 19/30 ≈ 0.6333, which does not exceed 0.7, and
`display_results` does not classify the pair SUPPORTED. -/
theorem C4_paris_counterexample :
    demoScore "Paris is capital of France".data
        "Paris serves as the capital city of France".data = 19/30 ∧
    ¬(demoScore "Paris is capital of France".data
        "Paris serves as the capital city of France".data > 7/10) ∧
    supportTier (demoScore "Paris is capital of France".data
        "Paris serves as the capital city of France".data) ≠
      Tier.supported := by
  refine ⟨demoScore_paris, ?_, ?_⟩
  · rw [demoScore_paris]
    norm_num
  · rw [demoScore_paris, supportTier_nineteen_thirtieths]
    simp

/-- Claim C4 (amended): for the pair ("Paris is capital of France",
"Paris serves as the capital city of France") the fallback score computed
by `generate_demo_scores` is 19/30 ≈ 0.6333, which exceeds 0.5 but not
0.7, so the report classifies the pair as PARTIALLY SUPPORTED. -/
theorem C4_paris_amended :
    demoScore "Paris is capital of France".data
        "Paris serves as the capital city of France".data = 19/30 ∧
    (1/2 : ℚ) < 19/30 ∧ (19/30 : ℚ) ≤ 7/10 ∧
    supportTier (demoScore "Paris is capital of France".data
        "Paris serves as the capital city of France".data) =
      Tier.partiallySupported := by
  refine ⟨demoScore_paris, by norm_num, by norm_num, ?_⟩
  rw [demoScore_paris, supportTier_nineteen_thirtieths]

/-- Claim C5 (confirmed): at every index `i` of the input pair list, the
claim record links to exactly one fact span, which equals the span of the
fact record at the same index, and that fact record links back to exactly
one claim span, which equals the claim record's own span. -/
theorem C5_crosslinks (pairs : List ClaimFactPair) (i : Nat)
    (hi : i < pairs.length) :
    ((buildSpans 0 0 pairs).2.1.getD i ⟨⟨0, 0, []⟩, []⟩).facts =
      [((buildSpans 0 0 pairs).2.2.getD i ⟨⟨0, 0, []⟩, []⟩).span] ∧
    ((buildSpans 0 0 pairs).2.2.getD i ⟨⟨0, 0, []⟩, []⟩).claims =
      [((buildSpans 0 0 pairs).2.1.getD i ⟨⟨0, 0, []⟩, []⟩).span] :=
  buildSpans_link pairs 0 0 i hi

/-- Witness for C5 at the single pair ("a", "b"), index 0. -/
theorem C5_crosslinks_witness :
    ((buildSpans 0 0 [⟨"a".data, "b".data, 0⟩]).2.1.getD 0
        ⟨⟨0, 0, []⟩, []⟩).facts =
      [((buildSpans 0 0 [⟨"a".data, "b".data, 0⟩]).2.2.getD 0
          ⟨⟨0, 0, []⟩, []⟩).span] :=
  (C5_crosslinks [⟨"a".data, "b".data, 0⟩] 0 (by decide)).1

/-- Claim C6 (confirmed): the report's support tier is SUPPORTED iff
s > 0.7, PARTIALLY SUPPORTED iff 0.5 < s ≤ 0.7, WEAKLY SUPPORTED iff
0.3 < s ≤ 0.5, CONTRADICTED iff s ≤ 0.3; in particular the boundary value
0.7 is classified PARTIALLY SUPPORTED, not SUPPORTED. -/
theorem C6_support_tiers (s : ℚ) :
    (supportTier s = Tier.supported ↔ 7/10 < s) ∧
    (supportTier s = Tier.partiallySupported ↔ 1/2 < s ∧ s ≤ 7/10) ∧
    (supportTier s = Tier.weaklySupported ↔ 3/10 < s ∧ s ≤ 1/2) ∧
    (supportTier s = Tier.contradicted ↔ s ≤ 3/10) ∧
    supportTier (7/10) = Tier.partiallySupported := by
  refine ⟨?_, ?_, ?_, ?_, ?_⟩
  · unfold supportTier
    split_ifs with h1 h2 h3 <;> simp_all <;> linarith
  · unfold supportTier
    split_ifs with h1 h2 h3 <;> simp_all <;>
      first
        | linarith
        | (constructor <;> linarith)
        | (intro h; linarith)
  · unfold supportTier
    split_ifs with h1 h2 h3 <;> simp_all <;>
      first
        | linarith
        | (constructor <;> linarith)
        | (intro h; linarith)
  · unfold supportTier
    split_ifs with h1 h2 h3 <;> simp_all <;> linarith
  · unfold supportTier
    rw [if_neg (by norm_num), if_pos (by norm_num)]

/-- Claim C7 as stated is false on the code: the whitespace-only string
" " is non-empty, yet lower-casing and whitespace-splitting it yields an
empty token set, so the union is empty and `generate_demo_scores` scores
(" ", " ") as 0.0, not 1.0. -/
theorem C7_self_counterexample :
    ([' '] : List Char) ≠ [] ∧ demoScore [' '] [' '] = 0 ∧ (0 : ℚ) ≠ 1 := by
  refine ⟨by decide, ?_, by norm_num⟩
  have h : (tokenSet [' '] ∪ tokenSet [' ']).card = 0 := by decide
  simp only [demoScore]
  rw [if_pos h]

/-- Claim C7 (amended): for every string containing at least one
non-whitespace character (so that its whitespace-delimited token set is
non-empty), `generate_demo_scores` applied to the pair (s, s) yields
exactly the maximum achievable score 1.0. -/
theorem C7_self_amended (s : List Char)
    (h : ∃ c ∈ s, c.isWhitespace = false) : demoScore s s = 1 :=
  demoScore_self s (tokenSet_nonempty s h)

/-- Witness for C7 (amended) at the string "a". -/
theorem C7_self_amended_witness :
    (∃ c ∈ ("a".data : List Char), c.isWhitespace = false) ∧
    demoScore "a".data "a".data = 1 :=
  ⟨by decide, C7_self_amended "a".data (by decide)⟩

/-- Claim C8 (confirmed): the report's sentiment label is the argmax of
(positive, neutral, negative) with ties broken by the fixed priority
negative > positive > neutral: NEGATIVE exactly when negative attains the
maximum, otherwise POSITIVE exactly when positive attains the maximum,
otherwise NEUTRAL. -/
theorem C8_sentiment_argmax (pos neu neg : ℚ) :
    (sentimentLabel pos neu neg = Label.negative ↔ pos ≤ neg ∧ neu ≤ neg) ∧
    (sentimentLabel pos neu neg = Label.positive ↔
        ¬(pos ≤ neg ∧ neu ≤ neg) ∧ (neu ≤ pos ∧ neg ≤ pos)) ∧
    (sentimentLabel pos neu neg = Label.neutral ↔
        ¬(pos ≤ neg ∧ neu ≤ neg) ∧ ¬(neu ≤ pos ∧ neg ≤ pos)) := by
  have hup : pos ≤ max pos (max neu neg) := le_max_left _ _
  have huu : neu ≤ max pos (max neu neg) :=
    le_trans (le_max_left neu neg) (le_max_right pos (max neu neg))
  have hub : neg ≤ max pos (max neu neg) :=
    le_trans (le_max_right neu neg) (le_max_right pos (max neu neg))
  have hn : max pos (max neu neg) = neg ↔ (pos ≤ neg ∧ neu ≤ neg) := by
    constructor
    · intro h
      rw [h] at hup huu
      exact ⟨hup, huu⟩
    · rintro ⟨ha, hb⟩
      exact le_antisymm (max_le ha (max_le hb le_rfl)) hub
  have hp : max pos (max neu neg) = pos ↔ (neu ≤ pos ∧ neg ≤ pos) := by
    constructor
    · intro h
      rw [h] at huu hub
      exact ⟨huu, hub⟩
    · rintro ⟨ha, hb⟩
      exact le_antisymm (max_le le_rfl (max_le ha hb)) hup
  simp only [sentimentLabel]
  split_ifs with h1 h2
  · exact ⟨iff_of_true rfl (hn.mp h1),
      iff_of_false (by simp) (fun hx => hx.1 (hn.mp h1)),
      iff_of_false (by simp) (fun hx => hx.1 (hn.mp h1))⟩
  · exact ⟨iff_of_false (by simp) (fun hx => h1 (hn.mpr hx)),
      iff_of_true rfl ⟨fun hx => h1 (hn.mpr hx), hp.mp h2⟩,
      iff_of_false (by simp) (fun hx => hx.2 (hp.mp h2))⟩
  · exact ⟨iff_of_false (by simp) (fun hx => h1 (hn.mpr hx)),
      iff_of_false (by simp) (fun hx => h2 (hp.mpr hx.2)),
      iff_of_true rfl ⟨fun hx => h1 (hn.mpr hx), fun hx => h2 (hp.mpr hx)⟩⟩

/-- Claim C9 (confirmed): if any of the three liveness probes fails,
`main` issues no `/v1/process` call on any service and returns the
non-zero exit status 1; if all three probes succeed, the three stages run
in order (sentiment, hate-check, fact-check) and `main` returns 0,
whatever the individual stage outcomes are. -/
theorem C9_probe_gate (probes : ProbeResults) (sResp hResp : StageResp)
    (fResp : FcResponse) :
    ((probes.sentiment = false ∨ probes.hatecheck = false ∨
        probes.factcheck = false) →
      mainM probes sResp hResp fResp = (1, [])) ∧
    (probes.sentiment = true → probes.hatecheck = true →
      probes.factcheck = true →
      mainM probes sResp hResp fResp =
        (0, [Stage.sentiment, Stage.hatecheck, Stage.factcheck])) := by
  constructor
  · intro h
    have hb : (probes.sentiment && probes.hatecheck && probes.factcheck)
        = false := by
      rcases h with h | h | h <;> simp [h]
    simp [mainM, hb]
  · intro h1 h2 h3
    have hfc : (run_factcheckM FACT_CHECK_PAIRS fResp).2 = true := by
      cases fResp <;>
        simp only [run_factcheckM, FACT_CHECK_PAIRS, List.isEmpty_cons,
          Bool.false_eq_true, if_false] <;>
        first
          | rfl
          | (split_ifs <;> rfl)
    cases sResp <;> cases hResp <;>
      simp [mainM, h1, h2, h3, run_sentimentM, run_hatecheckM, hfc]

/-- Witness for C9: a failing sentiment probe aborts with status 1 and no
calls; all probes passing runs the three stages and returns 0. -/
theorem C9_probe_gate_witness :
    mainM ⟨false, true, true⟩ .ok .ok .timeout = (1, []) ∧
    mainM ⟨true, true, true⟩ .ok .ok .timeout =
      (0, [Stage.sentiment, Stage.hatecheck, Stage.factcheck]) :=
  ⟨(C9_probe_gate ⟨false, true, true⟩ .ok .ok .timeout).1 (Or.inl rfl),
   (C9_probe_gate ⟨true, true, true⟩ .ok .ok .timeout).2 rfl rfl rfl⟩

/-- Claim C10 (confirmed): the report renderer stays in bounds when
result lengths disagree with the input: it renders exactly
min(len(consistency), len(pairs)) fact-check rows, each reading the score
and the pair at an in-bounds index, and the `non_hate` read yields
`non_hate[i]` only when `i` is within that list's bounds, substituting 0
otherwise. -/
theorem C10_render_bounds (consistency : List ℚ)
    (pairs : List ClaimFactPair) (non_hate : List ℚ) (i : Nat) :
    (displayFactcheckRows consistency pairs).length =
        min consistency.length pairs.length ∧
    (∀ j, j < (displayFactcheckRows consistency pairs).length →
        j < consistency.length ∧ j < pairs.length ∧
        (displayFactcheckRows consistency pairs).getD j (⟨[], [], 0⟩, 0) =
          (pairs.getD j ⟨[], [], 0⟩, consistency.getD j 0)) ∧
    (i < non_hate.length → displayNonHate non_hate i = non_hate.getD i 0) ∧
    (non_hate.length ≤ i → displayNonHate non_hate i = 0) := by
  refine ⟨?_, ?_, ?_, ?_⟩
  · simp [displayFactcheckRows]
  · intro j hj
    simp only [displayFactcheckRows, List.length_map, List.length_range]
      at hj
    refine ⟨by omega, by omega, ?_⟩
    simp [displayFactcheckRows, List.getD_eq_getElem?_getD,
      List.getElem?_map, List.getElem?_range, hj]
  · intro h
    simp [displayNonHate, h]
  · intro h
    rw [displayNonHate, if_neg (by omega)]

/-- Witness for C10: one row is rendered for one score and one pair, and
an out-of-bounds `non_hate` read at index 0 of the empty list yields 0. -/
theorem C10_render_bounds_witness :
    (displayFactcheckRows [1] [⟨"a".data, "b".data, 0⟩]).length =
      min ([(1 : ℚ)]).length ([(⟨"a".data, "b".data, 0⟩ : ClaimFactPair)]).length ∧
    displayNonHate [] 0 = 0 :=
  ⟨(C10_render_bounds [1] [⟨"a".data, "b".data, 0⟩] [] 0).1,
   (C10_render_bounds [1] [⟨"a".data, "b".data, 0⟩] [] 0).2.2.2
     (by decide)⟩
